import Mathlib

/-!
Verification of the rate-limiter configuration model and the FIFO writer of
`src/vmm/src/vmm_config/mod.rs`.

The configuration types and their operations are translated directly from the
Rust source.  `u64` values are embedded as `Nat` (no arithmetic is performed on
them, so overflow never matters).  The external collaborators — the
`rate_limiter` crate's live objects, the serde-generated deserializers' runtime,
the standard library's file/pipe I/O and `Mutex` — are modelled from the spec
where the source only calls into them; each such definition is marked
`Modelled from the spec:` in its doc comment.
-/

/-- `TokenBucketConfig` from the source: a stateless description of one token
bucket, fields `size : u64`, `one_time_burst : Option<u64>`,
`refill_time : u64`. -/
structure TokenBucketConfig where
  size : Nat
  one_time_burst : Option Nat
  refill_time : Nat
  deriving DecidableEq, Repr

/-- The derived `Default` for `TokenBucketConfig`: every numeric field zero,
the optional field `None`. -/
def TokenBucketConfig.default : TokenBucketConfig :=
  { size := 0, one_time_burst := none, refill_time := 0 }

/-- `RateLimiterConfig` from the source: two independent optional bucket
configurations, `bandwidth` and `ops`. -/
structure RateLimiterConfig where
  bandwidth : Option TokenBucketConfig
  ops : Option TokenBucketConfig
  deriving DecidableEq, Repr

/-- The derived `Default` for `RateLimiterConfig`: both axes absent. -/
def RateLimiterConfig.default : RateLimiterConfig :=
  { bandwidth := none, ops := none }

/-- `RateLimiterConfig::update` from the source, in state-passing form: the
mutated receiver is the return value.  The body is the direct translation of
the two `if new_config.<axis>.is_some() { self.<axis> = new_config.<axis> }`
statements. -/
def RateLimiterConfig.update (self new_config : RateLimiterConfig) :
    RateLimiterConfig :=
  let s1 := if new_config.bandwidth.isSome then
    { self with bandwidth := new_config.bandwidth } else self
  if new_config.ops.isSome then { s1 with ops := new_config.ops } else s1

/-- The six arguments the source's `TryInto<RateLimiter>` implementation passes
to `RateLimiter::new`, in order: bandwidth size, bandwidth one-time burst,
bandwidth refill time, then the same triple for ops. -/
structure RateLimiterArgs where
  bw_size : Nat
  bw_one_time_burst : Option Nat
  bw_refill_time : Nat
  ops_size : Nat
  ops_one_time_burst : Option Nat
  ops_refill_time : Nat
  deriving DecidableEq, Repr

/-- `TryInto<RateLimiter> for RateLimiterConfig` from the source, up to the
call into the external `RateLimiter::new` constructor: `bw` and `ops` are the
present buckets or the derived defaults (`unwrap_or_default`), and the six
fields are passed through unmodified. -/
def RateLimiterConfig.tryIntoArgs (self : RateLimiterConfig) :
    RateLimiterArgs :=
  let bw := self.bandwidth.getD TokenBucketConfig.default
  let ops := self.ops.getD TokenBucketConfig.default
  { bw_size := bw.size
    bw_one_time_burst := bw.one_time_burst
    bw_refill_time := bw.refill_time
    ops_size := ops.size
    ops_one_time_burst := ops.one_time_burst
    ops_refill_time := ops.refill_time }

theorem update_bandwidth_eq (self n : RateLimiterConfig) :
    (self.update n).bandwidth =
      if n.bandwidth.isSome then n.bandwidth else self.bandwidth := by
  unfold RateLimiterConfig.update
  cases hb : n.bandwidth <;> cases ho : n.ops <;> simp [hb, ho]

theorem update_ops_eq (self n : RateLimiterConfig) :
    (self.update n).ops =
      if n.ops.isSome then n.ops else self.ops := by
  unfold RateLimiterConfig.update
  cases hb : n.bandwidth <;> cases ho : n.ops <;> simp [hb, ho]

theorem rlc_ext (c d : RateLimiterConfig)
    (h1 : c.bandwidth = d.bandwidth) (h2 : c.ops = d.ops) : c = d := by
  cases c; cases d; simp_all

/-- C1: `update` handles the bandwidth and ops axes independently: a present
axis of the patch replaces the whole corresponding axis of the receiver (the
entire bucket, with no merging of individual bucket fields), and an absent
axis leaves the receiver's axis exactly as it was.  In this state-passing
embedding the in-place mutation is the returned receiver, and nothing else is
returned. -/
theorem update_axis_independent (self new_config : RateLimiterConfig) :
    (∀ b, new_config.bandwidth = some b →
      (self.update new_config).bandwidth = some b) ∧
    (new_config.bandwidth = none →
      (self.update new_config).bandwidth = self.bandwidth) ∧
    (∀ b, new_config.ops = some b →
      (self.update new_config).ops = some b) ∧
    (new_config.ops = none →
      (self.update new_config).ops = self.ops) := by
  refine ⟨fun b hb => ?_, fun hb => ?_, fun b ho => ?_, fun ho => ?_⟩ <;>
    simp [update_bandwidth_eq, update_ops_eq, *]

theorem update_axis_independent_witness :
    (RateLimiterConfig.mk (some ⟨1, some 2, 3⟩) (some ⟨4, none, 5⟩)
      |>.update (RateLimiterConfig.mk (some ⟨6, none, 7⟩) none)).bandwidth
        = some ⟨6, none, 7⟩ ∧
    (RateLimiterConfig.mk (some ⟨1, some 2, 3⟩) (some ⟨4, none, 5⟩)
      |>.update (RateLimiterConfig.mk (some ⟨6, none, 7⟩) none)).ops
        = some ⟨4, none, 5⟩ :=
  ⟨(update_axis_independent _ _).1 _ rfl,
   (update_axis_independent _ _).2.2.2 rfl⟩

/-- C3: for every pair (base, patch), `update` leaves an axis of `base`
unchanged exactly when the patch's field for that axis is `none`, and fully
replaces the axis with the patch's whole bucket otherwise (no partial
within-bucket merge). -/
theorem update_unchanged_iff_absent (base patch : RateLimiterConfig) :
    ((patch.bandwidth = none →
      (base.update patch).bandwidth = base.bandwidth) ∧
     (patch.bandwidth ≠ none →
      (base.update patch).bandwidth = patch.bandwidth)) ∧
    ((patch.ops = none → (base.update patch).ops = base.ops) ∧
     (patch.ops ≠ none → (base.update patch).ops = patch.ops)) := by
  refine ⟨⟨fun h => ?_, fun h => ?_⟩, ⟨fun h => ?_, fun h => ?_⟩⟩ <;>
    simp [update_bandwidth_eq, update_ops_eq, *]

theorem update_unchanged_iff_absent_witness :
    (RateLimiterConfig.mk none (some ⟨4, none, 5⟩)
      |>.update (RateLimiterConfig.mk (some ⟨6, none, 7⟩) none)).bandwidth
        = some ⟨6, none, 7⟩ ∧
    (RateLimiterConfig.mk none (some ⟨4, none, 5⟩)
      |>.update (RateLimiterConfig.mk (some ⟨6, none, 7⟩) none)).ops
        = some ⟨4, none, 5⟩ :=
  ⟨((update_unchanged_iff_absent _ _).1.2 (by simp)).trans rfl,
   (update_unchanged_iff_absent _ _).2.1 rfl⟩

/-- C10: `update` composes by patch merging: updating with `p1` then `p2`
equals a single update with the combined patch `p1.update p2`; applying the
same patch twice equals applying it once; and updating with the default
config (both axes absent) changes nothing. -/
theorem update_compose (a p1 p2 p : RateLimiterConfig) :
    (a.update p1).update p2 = a.update (p1.update p2) ∧
    (a.update p).update p = a.update p ∧
    a.update RateLimiterConfig.default = a := by
  refine ⟨?_, ?_, ?_⟩
  · apply rlc_ext <;>
      simp only [update_bandwidth_eq, update_ops_eq] <;>
      [cases p2.bandwidth; cases p2.ops] <;>
      simp
  · apply rlc_ext <;>
      simp only [update_bandwidth_eq, update_ops_eq] <;>
      [cases p.bandwidth; cases p.ops] <;>
      simp
  · apply rlc_ext <;> simp [update_bandwidth_eq, update_ops_eq,
      RateLimiterConfig.default]

/-- C2: the conversion to a live limiter substitutes the all-zero/disabled
default bucket for each absent axis and passes each resulting bucket's size,
optional one-time burst (unchanged), and refill time, bandwidth triple first
and ops triple second, unmodified to the six-parameter constructor; a config
with both axes absent yields exclusively zero/disabled parameters. -/
theorem try_into_args_spec (c : RateLimiterConfig) :
    (∀ b, c.bandwidth = some b →
      (c.tryIntoArgs).bw_size = b.size ∧
      (c.tryIntoArgs).bw_one_time_burst = b.one_time_burst ∧
      (c.tryIntoArgs).bw_refill_time = b.refill_time) ∧
    (c.bandwidth = none →
      (c.tryIntoArgs).bw_size = 0 ∧
      (c.tryIntoArgs).bw_one_time_burst = none ∧
      (c.tryIntoArgs).bw_refill_time = 0) ∧
    (∀ b, c.ops = some b →
      (c.tryIntoArgs).ops_size = b.size ∧
      (c.tryIntoArgs).ops_one_time_burst = b.one_time_burst ∧
      (c.tryIntoArgs).ops_refill_time = b.refill_time) ∧
    (c.ops = none →
      (c.tryIntoArgs).ops_size = 0 ∧
      (c.tryIntoArgs).ops_one_time_burst = none ∧
      (c.tryIntoArgs).ops_refill_time = 0) ∧
    (c.bandwidth = none → c.ops = none →
      c.tryIntoArgs = ⟨0, none, 0, 0, none, 0⟩) := by
  refine ⟨fun b hb => ?_, fun hb => ?_, fun b ho => ?_, fun ho => ?_,
    fun hb ho => ?_⟩ <;>
    simp [RateLimiterConfig.tryIntoArgs, TokenBucketConfig.default, *]

theorem try_into_args_spec_witness :
    (RateLimiterConfig.mk (some ⟨5, some 7, 9⟩) none).tryIntoArgs.bw_size = 5 ∧
    (RateLimiterConfig.mk (some ⟨5, some 7, 9⟩) none).tryIntoArgs.ops_size = 0 ∧
    (RateLimiterConfig.mk none none).tryIntoArgs = ⟨0, none, 0, 0, none, 0⟩ :=
  ⟨((try_into_args_spec _).1 _ rfl).1,
   ((try_into_args_spec _).2.2.2.1 rfl).1,
   (try_into_args_spec _).2.2.2.2 rfl rfl⟩

/-! ### Deserialization

`TokenBucketConfig` and `RateLimiterConfig` derive serde's `Deserialize`.
The generated deserializers are embedded over a small JSON-like value type:
for each struct, the visitor walks the map entries in order, fills each known
field at most once (a repeated field is a `duplicate field` error, a
mismatched value a type error), and at the end requires every non-`Option`
field to have been seen (`missing field` error) while an unseen `Option`
field becomes `none`.  `RateLimiterConfig` carries
`#[serde(deny_unknown_fields)]`, so an unrecognized key is an
`unknown field` error there; `TokenBucketConfig` carries no such attribute,
so inside a bucket an unrecognized key's value is consumed and ignored
(serde's default). -/

/-- A JSON-like value for untrusted input. -/
inductive JVal where
  | num (n : Nat)
  | str (s : String)
  | null
  | obj (fields : List (String × JVal))

/-- Deserializing a `u64` field value. -/
def parseU64 : JVal → Except String Nat
  | .num n => .ok n
  | _ => .error "invalid type: expected u64"

/-- Deserializing an `Option<u64>` field value (`null` is `None`). -/
def parseOptU64 : JVal → Except String (Option Nat)
  | .null => .ok none
  | .num n => .ok (some n)
  | _ => .error "invalid type: expected option of u64"

/-- The field loop of the derived `TokenBucketConfig` deserializer.  The three
accumulators record fields already seen.  An unrecognized key falls through to
the final branch and is ignored, because the struct has no
`deny_unknown_fields` attribute. -/
def tbcGo : List (String × JVal) → Option Nat → Option (Option Nat) →
    Option Nat → Except String TokenBucketConfig
  | [], sizeAcc, otbAcc, refillAcc =>
    match sizeAcc with
    | none => .error "missing field size"
    | some s =>
      match refillAcc with
      | none => .error "missing field refill_time"
      | some r => .ok ⟨s, otbAcc.getD none, r⟩
  | (k, v) :: rest, sizeAcc, otbAcc, refillAcc =>
    if k = "size" then
      match sizeAcc with
      | some _ => .error "duplicate field size"
      | none =>
        match parseU64 v with
        | .error e => .error e
        | .ok n => tbcGo rest (some n) otbAcc refillAcc
    else if k = "one_time_burst" then
      match otbAcc with
      | some _ => .error "duplicate field one_time_burst"
      | none =>
        match parseOptU64 v with
        | .error e => .error e
        | .ok o => tbcGo rest sizeAcc (some o) refillAcc
    else if k = "refill_time" then
      match refillAcc with
      | some _ => .error "duplicate field refill_time"
      | none =>
        match parseU64 v with
        | .error e => .error e
        | .ok n => tbcGo rest sizeAcc otbAcc (some n)
    else
      tbcGo rest sizeAcc otbAcc refillAcc

/-- The derived deserializer for `TokenBucketConfig`. -/
def deserializeTokenBucketConfig : JVal → Except String TokenBucketConfig
  | .obj fs => tbcGo fs none none none
  | _ => .error "invalid type: expected struct TokenBucketConfig"

/-- Deserializing an `Option<TokenBucketConfig>` field value. -/
def parseOptTBC (v : JVal) : Except String (Option TokenBucketConfig) :=
  match v with
  | .null => .ok none
  | v => (deserializeTokenBucketConfig v).map some

/-- The field loop of the derived `RateLimiterConfig` deserializer.  Because
of `#[serde(deny_unknown_fields)]`, a key other than `bandwidth` or `ops` is
rejected. -/
def rlcGo : List (String × JVal) → Option (Option TokenBucketConfig) →
    Option (Option TokenBucketConfig) → Except String RateLimiterConfig
  | [], bwAcc, opsAcc => .ok ⟨bwAcc.getD none, opsAcc.getD none⟩
  | (k, v) :: rest, bwAcc, opsAcc =>
    if k = "bandwidth" then
      match bwAcc with
      | some _ => .error "duplicate field bandwidth"
      | none =>
        match parseOptTBC v with
        | .error e => .error e
        | .ok o => rlcGo rest (some o) opsAcc
    else if k = "ops" then
      match opsAcc with
      | some _ => .error "duplicate field ops"
      | none =>
        match parseOptTBC v with
        | .error e => .error e
        | .ok o => rlcGo rest bwAcc (some o)
    else
      .error "unknown field"

/-- The derived deserializer for `RateLimiterConfig`. -/
def deserializeRateLimiterConfig : JVal → Except String RateLimiterConfig
  | .obj fs => rlcGo fs none none
  | _ => .error "invalid type: expected struct RateLimiterConfig"

/-- `true` exactly on successful results. -/
def isOkE {ε α : Type} : Except ε α → Bool
  | .ok _ => true
  | .error _ => false

theorem tbcGo_missing_size (fs : List (String × JVal)) :
    ∀ otbAcc refillAcc, (∀ p ∈ fs, p.1 ≠ "size") →
    isOkE (tbcGo fs none otbAcc refillAcc) = false := by
  induction fs with
  | nil => intro _ _ _; rfl
  | cons hd rest ih =>
    intro otbAcc refillAcc h
    obtain ⟨k, v⟩ := hd
    have hk : k ≠ "size" := h (k, v) (List.mem_cons_self _ _)
    have hrest : ∀ p ∈ rest, p.1 ≠ "size" :=
      fun p hp => h p (List.mem_cons_of_mem _ hp)
    simp only [tbcGo, if_neg hk]
    by_cases h1 : k = "one_time_burst"
    · simp only [if_pos h1]
      cases otbAcc with
      | some _ => rfl
      | none =>
        cases hv : parseOptU64 v with
        | error e => rfl
        | ok o => exact ih _ _ hrest
    · simp only [if_neg h1]
      by_cases h2 : k = "refill_time"
      · simp only [if_pos h2]
        cases refillAcc with
        | some _ => rfl
        | none =>
          cases hv : parseU64 v with
          | error e => rfl
          | ok n => exact ih _ _ hrest
      · simp only [if_neg h2]
        exact ih _ _ hrest

theorem tbcGo_missing_refill (fs : List (String × JVal)) :
    ∀ sizeAcc otbAcc, (∀ p ∈ fs, p.1 ≠ "refill_time") →
    isOkE (tbcGo fs sizeAcc otbAcc none) = false := by
  induction fs with
  | nil => intro sizeAcc _ _; cases sizeAcc <;> rfl
  | cons hd rest ih =>
    intro sizeAcc otbAcc h
    obtain ⟨k, v⟩ := hd
    have hk : k ≠ "refill_time" := h (k, v) (List.mem_cons_self _ _)
    have hrest : ∀ p ∈ rest, p.1 ≠ "refill_time" :=
      fun p hp => h p (List.mem_cons_of_mem _ hp)
    simp only [tbcGo]
    by_cases h1 : k = "size"
    · simp only [if_pos h1]
      cases sizeAcc with
      | some _ => rfl
      | none =>
        cases hv : parseU64 v with
        | error e => rfl
        | ok n => exact ih _ _ hrest
    · simp only [if_neg h1]
      by_cases h2 : k = "one_time_burst"
      · simp only [if_pos h2]
        cases otbAcc with
        | some _ => rfl
        | none =>
          cases hv : parseOptU64 v with
          | error e => rfl
          | ok o => exact ih _ _ hrest
      · simp only [if_neg h2, if_neg hk]
        exact ih _ _ hrest

theorem rlc_single_bandwidth_bucket (fs : List (String × JVal))
    (h : isOkE (tbcGo fs none none none) = false) :
    isOkE (deserializeRateLimiterConfig (.obj [("bandwidth", .obj fs)]))
      = false := by
  simp only [deserializeRateLimiterConfig, rlcGo, parseOptTBC,
    deserializeTokenBucketConfig, if_pos rfl]
  cases htb : tbcGo fs none none none with
  | error e => simp [Except.map, isOkE]
  | ok t => rw [htb] at h; exact absurd h (by simp [isOkE])

/-- C4 (counterexample): the claim says an unrecognized key inside a present
bucket object is rejected; the code accepts it.  `TokenBucketConfig` has no
`deny_unknown_fields` attribute, so the derived deserializer consumes and
ignores the key `"surprise"` and the whole input deserializes successfully. -/
theorem bucket_unknown_key_accepted :
    deserializeRateLimiterConfig (.obj [("bandwidth", .obj
      [("size", .num 0), ("refill_time", .num 0), ("surprise", .num 1)])])
      = .ok ⟨some ⟨0, none, 0⟩, none⟩ ∧
    ¬ isOkE (deserializeRateLimiterConfig (.obj [("bandwidth", .obj
      [("size", .num 0), ("refill_time", .num 0), ("surprise", .num 1)])]))
      = false := by
  exact ⟨rfl, by decide⟩

/-- C4 (amended): deserializing into `RateLimiterConfig` fails with a schema
error when a present bucket object is missing a required key (`size` or
`refill_time`); `one_time_burst` is optional inside a bucket; but a key beyond
the three known bucket keys is ignored rather than rejected (only top-level
unknown keys are errors, because only `RateLimiterConfig` carries
`deny_unknown_fields`). -/
theorem deser_bucket_shape (fs : List (String × JVal)) (s o r : Nat)
    (k : String) (v : JVal) :
    ((∀ p ∈ fs, p.1 ≠ "size") →
      isOkE (deserializeRateLimiterConfig (.obj [("bandwidth", .obj fs)]))
        = false) ∧
    ((∀ p ∈ fs, p.1 ≠ "refill_time") →
      isOkE (deserializeRateLimiterConfig (.obj [("bandwidth", .obj fs)]))
        = false) ∧
    (k ≠ "size" → k ≠ "one_time_burst" → k ≠ "refill_time" →
      deserializeRateLimiterConfig (.obj [("bandwidth", .obj
        [("size", .num s), ("refill_time", .num r), (k, v)])])
        = .ok ⟨some ⟨s, none, r⟩, none⟩) ∧
    (deserializeRateLimiterConfig (.obj [("ops", .obj
      [("size", .num s), ("one_time_burst", .num o), ("refill_time", .num r)])])
      = .ok ⟨none, some ⟨s, some o, r⟩⟩) := by
  refine ⟨fun h => rlc_single_bandwidth_bucket fs (tbcGo_missing_size fs _ _ h),
    fun h => rlc_single_bandwidth_bucket fs (tbcGo_missing_refill fs _ _ h),
    fun h1 h2 h3 => ?_, rfl⟩
  simp only [deserializeRateLimiterConfig, rlcGo, parseOptTBC,
    deserializeTokenBucketConfig, tbcGo, parseU64, if_pos rfl,
    if_neg h1, if_neg h2, if_neg h3]
  rfl

theorem deser_bucket_shape_witness :
    isOkE (deserializeRateLimiterConfig (.obj [("bandwidth", .obj
      [("refill_time", JVal.num 0)])])) = false ∧
    deserializeRateLimiterConfig (.obj [("bandwidth", .obj
      [("size", JVal.num 1), ("refill_time", JVal.num 2),
       ("extra", JVal.num 3)])]) = .ok ⟨some ⟨1, none, 2⟩, none⟩ :=
  ⟨(deser_bucket_shape [("refill_time", JVal.num 0)] 0 0 0 "x" JVal.null).1
      (by intro p hp; rw [List.mem_singleton] at hp; subst hp; decide),
   (deser_bucket_shape [] 1 0 2 "extra" (JVal.num 3) |>.2.2.1)
      (by decide) (by decide) (by decide)⟩

theorem rlcGo_unknown_key (fs : List (String × JVal)) :
    ∀ bwAcc opsAcc k v, (k, v) ∈ fs → k ≠ "bandwidth" → k ≠ "ops" →
    isOkE (rlcGo fs bwAcc opsAcc) = false := by
  induction fs with
  | nil => intro _ _ _ _ hmem _ _; exact absurd hmem (List.not_mem_nil _)
  | cons hd rest ih =>
    intro bwAcc opsAcc k v hmem h1 h2
    obtain ⟨k0, v0⟩ := hd
    rcases List.mem_cons.mp hmem with heq | htail
    · obtain ⟨hk, hv⟩ := Prod.mk.injEq .. ▸ heq.symm
      subst hk
      simp only [rlcGo, if_neg h1, if_neg h2]
      rfl
    · simp only [rlcGo]
      by_cases hb : k0 = "bandwidth"
      · simp only [if_pos hb]
        cases bwAcc with
        | some _ => rfl
        | none =>
          cases hv : parseOptTBC v0 with
          | error e => rfl
          | ok t => exact ih _ _ _ _ htail h1 h2
      · simp only [if_neg hb]
        by_cases ho : k0 = "ops"
        · simp only [if_pos ho]
          cases opsAcc with
          | some _ => rfl
          | none =>
            cases hv : parseOptTBC v0 with
            | error e => rfl
            | ok t => exact ih _ _ _ _ htail h1 h2
        · simp only [if_neg ho]
          rfl

/-- C5: the presence of any top-level key other than `bandwidth` or `ops`
makes deserialization into `RateLimiterConfig` fail (strict schema from
`deny_unknown_fields`); such input is never accepted or defaulted. -/
theorem rlc_unknown_top_level_rejected (fs : List (String × JVal))
    (k : String) (v : JVal) (hmem : (k, v) ∈ fs)
    (h1 : k ≠ "bandwidth") (h2 : k ≠ "ops") :
    isOkE (deserializeRateLimiterConfig (.obj fs)) = false :=
  rlcGo_unknown_key fs none none k v hmem h1 h2

theorem rlc_unknown_top_level_rejected_witness :
    isOkE (deserializeRateLimiterConfig (.obj [("rate", JVal.null)])) = false :=
  rlc_unknown_top_level_rejected [("rate", JVal.null)] "rate" JVal.null
    (List.mem_singleton.mpr rfl) (by decide) (by decide)

/-- C6: `one_time_burst` absent and `one_time_burst = Some 0` are distinct
values that stay representable and distinguishable end to end: the two wire
inputs deserialize to different configs, `update` stores each one verbatim as
part of whole-bucket replacement, and conversion passes `none` versus
`some 0` as distinct one-time-burst arguments to the live constructor. -/
theorem one_time_burst_none_vs_zero (s r : Nat) :
    deserializeRateLimiterConfig (.obj [("bandwidth", .obj
      [("size", .num s), ("refill_time", .num r)])])
      = .ok ⟨some ⟨s, none, r⟩, none⟩ ∧
    deserializeRateLimiterConfig (.obj [("bandwidth", .obj
      [("size", .num s), ("one_time_burst", .num 0), ("refill_time", .num r)])])
      = .ok ⟨some ⟨s, some 0, r⟩, none⟩ ∧
    (⟨s, none, r⟩ : TokenBucketConfig) ≠ ⟨s, some 0, r⟩ ∧
    (∀ base : RateLimiterConfig,
      (base.update ⟨some ⟨s, none, r⟩, none⟩).bandwidth = some ⟨s, none, r⟩) ∧
    (∀ base : RateLimiterConfig,
      (base.update ⟨some ⟨s, some 0, r⟩, none⟩).bandwidth
        = some ⟨s, some 0, r⟩) ∧
    (RateLimiterConfig.mk (some ⟨s, none, r⟩) none).tryIntoArgs.bw_one_time_burst
      = none ∧
    (RateLimiterConfig.mk (some ⟨s, some 0, r⟩) none).tryIntoArgs.bw_one_time_burst
      = some 0 ∧
    (none : Option Nat) ≠ some 0 := by
  refine ⟨rfl, rfl, by simp, fun base => ?_, fun base => ?_, rfl, rfl, by simp⟩
  · simp [update_bandwidth_eq]
  · simp [update_bandwidth_eq]

/-! ### The FIFO writer

`Writer` wraps `Mutex<io::LineWriter<File>>`.  The standard library and
kernel pieces it calls into — `OpenOptions::open`, the pipe the line writer
feeds, and the mutex — are modelled from the spec; the `Writer` methods
themselves are translated from the source. -/

/-- The Linux value of `libc::O_NONBLOCK`. -/
def O_NONBLOCK : Int := 2048

/-- The option set the source builds with
`OpenOptions::new().custom_flags(O_NONBLOCK).read(true).write(true)`:
`custom_flags` holds the extra flags, and the `read`/`write` access modes. -/
structure OpenOptions where
  custom_flags : Int
  read : Bool
  write : Bool
  deriving DecidableEq, Repr

/-- An opened file handle, recording the path and the options it was opened
with. -/
structure File where
  path : String
  opts : OpenOptions
  deriving DecidableEq, Repr

/-- Modelled from the spec: `OpenOptions::open` of the standard library
succeeds, with the requested options recorded on the handle, exactly when the
destination path exists (the writer does not create the FIFO); otherwise it
returns an I/O error. -/
def openFile (fs : List String) (opts : OpenOptions) (path : String) :
    Except String File :=
  if path ∈ fs then .ok ⟨path, opts⟩
  else .error "No such file or directory"

/-- Modelled from the spec: the state visible through `io::LineWriter<File>`
over a named pipe — the opened file, the pipe's bounded kernel buffer
capacity, bytes still buffered in the line writer, and bytes accepted by the
pipe. -/
structure LineWriter where
  file : File
  capacity : Nat
  buf : List Nat
  sink : List Nat
  deriving DecidableEq, Repr

/-- Historic kernel pipe buffer bound from the spec, 64 KiB. -/
def pipeCapacity : Nat := 65536

/-- `io::LineWriter::new` over a fresh handle: nothing buffered, nothing
written. -/
def LineWriter.new (f : File) : LineWriter :=
  { file := f, capacity := pipeCapacity, buf := [], sink := [] }

/-- Modelled from the spec: `write_all` on the non-blocking handle either
accepts every byte of the message or fails with the would-block I/O error once
the bounded pipe buffer is full; it never blocks and never reports a partial
transfer. -/
def LineWriter.write_all (lw : LineWriter) (msg : List Nat) :
    Except String LineWriter :=
  if lw.sink.length + msg.length ≤ lw.capacity then
    .ok { lw with sink := lw.sink ++ msg }
  else .error "Resource temporarily unavailable"

/-- Modelled from the spec: flushing pushes the buffered bytes into the pipe,
failing with the would-block I/O error when they do not fit. -/
def LineWriter.flush (lw : LineWriter) : Except String LineWriter :=
  if lw.sink.length + lw.buf.length ≤ lw.capacity then
    .ok { lw with buf := [], sink := lw.sink ++ lw.buf }
  else .error "Resource temporarily unavailable"

/-- `Writer` from the source (embedded as `FifoWriter`; the name `Writer` is taken by Mathlib): a lock-guarded line writer.  The mutex is
modelled from the spec by its observable poison bit: `poisoned` records that a
prior holder terminated abnormally while holding the lock. -/
structure FifoWriter where
  poisoned : Bool
  line_writer : LineWriter
  deriving DecidableEq, Repr

/-- `Writer::new` from the source: open the FIFO path read/write with the
`O_NONBLOCK` custom flag and wrap the handle in a lock-guarded line writer;
an open failure is returned as the error, never a partially-initialized
writer. -/
def FifoWriter.new (fs : List String) (fifo_path : String) : Except String FifoWriter :=
  (openFile fs ⟨O_NONBLOCK, true, true⟩ fifo_path).map
    (fun t => { poisoned := false, line_writer := LineWriter.new t })

/-- `Writer::get_line_writer` from the source: lock and return the guarded
line writer; on a poisoned lock, recover the inner value
(`poisoned.into_inner()`) instead of failing. -/
def FifoWriter.get_line_writer (w : FifoWriter) : LineWriter :=
  match w.poisoned with
  | false => w.line_writer
  | true => w.line_writer

/-- `<Writer as io::Write>::write` from the source, in state-passing form:
`self.get_line_writer().write_all(msg).map(|()| msg.len())`. -/
def FifoWriter.write (w : FifoWriter) (msg : List Nat) :
    Except String Nat × FifoWriter :=
  let lw := w.get_line_writer
  match lw.write_all msg with
  | .ok lw2 => (.ok msg.length, { w with line_writer := lw2 })
  | .error e => (.error e, w)

/-- `<Writer as io::Write>::flush` from the source, in state-passing form. -/
def FifoWriter.flushW (w : FifoWriter) : Except String Unit × FifoWriter :=
  let lw := w.get_line_writer
  match lw.flush with
  | .ok lw2 => (.ok (), { w with line_writer := lw2 })
  | .error e => (.error e, w)

/-- C7: `write` takes the lock-guarded line writer and attempts to write the
whole message; a successful call reports exactly the message's length (never
a partial count), a successful `write_all` yields exactly that count with the
new handle state, and a failed `write_all` surfaces that I/O error instead. -/
theorem fifo_write_spec (w : FifoWriter) (msg : List Nat) :
    (∀ n, (w.write msg).1 = .ok n → n = msg.length) ∧
    (∀ lw2, w.get_line_writer.write_all msg = .ok lw2 →
      w.write msg = (.ok msg.length, { w with line_writer := lw2 })) ∧
    (∀ e, w.get_line_writer.write_all msg = .error e →
      w.write msg = (.error e, w)) := by
  refine ⟨fun n h => ?_, fun lw2 h => ?_, fun e h => ?_⟩
  · simp only [FifoWriter.write] at h
    cases hw : (w.get_line_writer).write_all msg with
    | ok lw2 => rw [hw] at h; exact (Except.ok.injEq .. ▸ h).symm
    | error e => rw [hw] at h; exact absurd h (by simp)
  · simp only [FifoWriter.write, h]
  · simp only [FifoWriter.write, h]

theorem fifo_write_spec_witness :
    (FifoWriter.mk false ⟨⟨"fifo", ⟨O_NONBLOCK, true, true⟩⟩, 10, [], []⟩
      |>.get_line_writer.write_all [1, 2, 3])
      = .ok ⟨⟨"fifo", ⟨O_NONBLOCK, true, true⟩⟩, 10, [], [1, 2, 3]⟩ ∧
    (FifoWriter.mk false ⟨⟨"fifo", ⟨O_NONBLOCK, true, true⟩⟩, 10, [], []⟩
      |>.write [1, 2, 3])
      = (.ok 3,
         ⟨false, ⟨⟨"fifo", ⟨O_NONBLOCK, true, true⟩⟩, 10, [], [1, 2, 3]⟩⟩) :=
  ⟨rfl, (fifo_write_spec _ _).2.1 _ rfl⟩

/-- C8: lock poisoning is recovered transparently: with a poisoned lock,
`get_line_writer` still yields the underlying handle, `write` and `flush`
behave exactly as with a healthy lock, and the only error either call can
surface is the I/O error of the recovered operation itself. -/
theorem fifo_poison_recovered (lw : LineWriter) (msg : List Nat) :
    FifoWriter.get_line_writer ⟨true, lw⟩ = lw ∧
    (FifoWriter.write ⟨true, lw⟩ msg).1 = (FifoWriter.write ⟨false, lw⟩ msg).1 ∧
    (FifoWriter.write ⟨true, lw⟩ msg).2.line_writer
      = (FifoWriter.write ⟨false, lw⟩ msg).2.line_writer ∧
    (FifoWriter.flushW ⟨true, lw⟩).1 = (FifoWriter.flushW ⟨false, lw⟩).1 ∧
    (FifoWriter.flushW ⟨true, lw⟩).2.line_writer
      = (FifoWriter.flushW ⟨false, lw⟩).2.line_writer ∧
    (∀ e, (FifoWriter.write ⟨true, lw⟩ msg).1 = .error e →
      lw.write_all msg = .error e) ∧
    (∀ e, (FifoWriter.flushW ⟨true, lw⟩).1 = .error e →
      lw.flush = .error e) := by
  have hget : ∀ p : Bool, FifoWriter.get_line_writer ⟨p, lw⟩ = lw := by
    intro p; cases p <;> rfl
  refine ⟨hget true, ?_, ?_, ?_, ?_, fun e h => ?_, fun e h => ?_⟩ <;>
    simp only [FifoWriter.write, FifoWriter.flushW, hget] at * <;>
    cases hw : lw.write_all msg <;> cases hf : lw.flush <;>
    simp_all

theorem fifo_poison_recovered_witness :
    (FifoWriter.write
      ⟨true, ⟨⟨"fifo", ⟨O_NONBLOCK, true, true⟩⟩, 0, [], []⟩⟩ [1]).1
      = .error "Resource temporarily unavailable" ∧
    LineWriter.write_all ⟨⟨"fifo", ⟨O_NONBLOCK, true, true⟩⟩, 0, [], []⟩ [1]
      = .error "Resource temporarily unavailable" :=
  ⟨rfl,
   (fifo_poison_recovered ⟨⟨"fifo", ⟨O_NONBLOCK, true, true⟩⟩, 0, [], []⟩
      [1]).2.2.2.2.2.1 _ rfl⟩

/-- C9: `Writer::new` opens the destination for simultaneous read and write
with the `O_NONBLOCK` flag explicitly requested, wraps the opened handle in a
lock-guarded line-buffered writer, and returns the I/O open error — never a
partially-initialized writer — when the path cannot be opened (for example
because it does not exist). -/
theorem fifo_new_spec (fs : List String) (path : String) :
    (path ∉ fs → FifoWriter.new fs path = .error "No such file or directory") ∧
    (path ∈ fs → FifoWriter.new fs path
      = .ok ⟨false, LineWriter.new ⟨path, ⟨O_NONBLOCK, true, true⟩⟩⟩) ∧
    (∀ w, FifoWriter.new fs path = .ok w →
      w.line_writer.file.opts.custom_flags = O_NONBLOCK ∧
      w.line_writer.file.opts.read = true ∧
      w.line_writer.file.opts.write = true ∧
      w.line_writer.file.path = path ∧
      w.poisoned = false) := by
  by_cases hmem : path ∈ fs <;>
    refine ⟨fun h => ?_, fun h => ?_, fun w hw => ?_⟩ <;>
    simp_all [FifoWriter.new, openFile, Except.map, LineWriter.new] <;>
    simp [← hw]

theorem fifo_new_spec_witness :
    FifoWriter.new ["fifo"] "nope" = .error "No such file or directory" ∧
    FifoWriter.new ["fifo"] "fifo"
      = .ok ⟨false, LineWriter.new ⟨"fifo", ⟨O_NONBLOCK, true, true⟩⟩⟩ :=
  ⟨(fifo_new_spec _ _).1 (by decide), (fifo_new_spec _ _).2.1 (by decide)⟩
